import Mathlib

/-!
Shallow embedding of the literary-clock client (`src/app.js`) of the
`timeinbooks` repository, together with theorems settling the frozen
claims about it.

The embedding follows the source function by function:
* quote records, hour partitions and the quote cache (`QuoteRecord`,
  `Partition`, `QuotesCache`);
* the format classifier `is24HourQuote`, including a faithful model of
  the three JavaScript regular expressions it evaluates (word-boundary
  semantics of `\b`, case-insensitive literal alternations);
* the selector `getQuoteForTime`;
* the hourly data store `loadHour` / `completeLoad` with promise
  identities, modelling the single-threaded event loop as explicit
  state transitions;
* the tick handler `updateClock`, whose DOM / timer side effects are
  reified as an effect list;
* the scheduler `scheduleNextUpdate` and the alignment-timeout
  callback;
* the transition player `playPageTurn`, whose nested timeouts are
  reified as chains of scheduled callbacks;
* the storage wrappers `storageGet` / `storageSet` over an explicit,
  possibly-throwing backend.

Randomness (`Math.random()`) enters the source only as
`Math.floor(Math.random() * pool.length)`, a uniform index in
`[0, pool.length)`; it is modelled by an injected natural number
`rand`, reduced `mod pool.length`.  Clock reads (`getCurrentTime`) are
modelled by passing the hour and minute explicitly.
-/

/-- A quote record as stored in the per-hour JSON documents:
`{quote_first, quote_time_case, quote_last, author, title}`. -/
structure QuoteRecord where
  quote_first : String
  quote_time_case : String
  quote_last : String
  author : String
  title : String
deriving DecidableEq

/-- One hour's partition: a mapping from zero-padded `"HH:MM"` keys to
candidate lists, modelled as an association list. -/
abbrev Partition := List (String × List QuoteRecord)

/-- The `quotesCache` object: hour key (`"00"`-`"23"`) to partition. -/
abbrev QuotesCache := List (String × Partition)

/-- `padStart(2, '0')` composed with `toString`: zero-pad a natural to
at least two digits, as in `hourKey` and `formatTimeKey`. -/
def pad2 (n : Nat) : String :=
  if n < 10 then "0" ++ toString n else toString n

/-- Source `hourKey(hour)`: `hour.toString().padStart(2, '0')`. -/
def hourKey (hour : Nat) : String := pad2 hour

/-- Source `formatTimeKey(hour, minute)`: zero-padded `"HH:MM"`. -/
def formatTimeKey (hour minute : Nat) : String :=
  pad2 hour ++ ":" ++ pad2 minute

/-! ### JavaScript regular-expression model

The classifier evaluates three regexes by `.test`:
`/\b(1[3-9]|2[0-3])\b/`, `/\b(am|pm|a\.m\.|p\.m\.)\b/i` and
`/\b(morning|evening|night|afternoon)\b/i`.  Each is a word-bounded
alternation of literals, so `.test` holds iff some literal occurs at
some position with a `\b` boundary on both sides.  JavaScript's `\b`
matches at a position iff exactly one of the adjacent characters is a
word character (`[A-Za-z0-9_]`), string ends counting as non-word. -/

/-- JavaScript word character: `[A-Za-z0-9_]`. -/
def isWordChar (c : Char) : Bool := c.isAlphanum || c == '_'

/-- Whether position `i` of `s` holds a word character; out of range
counts as non-word (string edge). -/
def wordAt (s : List Char) (i : Nat) : Bool :=
  match s.get? i with
  | some c => isWordChar c
  | none => false

/-- JavaScript `\b` at position `i` (between `s[i-1]` and `s[i]`). -/
def boundaryAt (s : List Char) (i : Nat) : Bool :=
  (match i with
   | 0 => false
   | j + 1 => wordAt s j) != wordAt s i

/-- Character comparison, case-insensitively when `ci` is set (the
`/i` flag; all literals involved are ASCII). -/
def charEqCI (ci : Bool) (a b : Char) : Bool :=
  if ci then a.toLower == b.toLower else a == b

/-- Whether `alt` occurs literally at the head of `s`, modulo case
when `ci` is set. -/
def litPrefixCI (ci : Bool) : List Char → List Char → Bool
  | [], _ => true
  | _ :: _, [] => false
  | a :: as, b :: bs => charEqCI ci a b && litPrefixCI ci as bs

/-- `.test` of a word-bounded literal alternation
`/\b(alt1|alt2|...)\b/`: some alternative matches at some position
with a `\b` boundary on both sides. -/
def testRegexAlts (ci : Bool) (alts : List (List Char)) (s : List Char) : Bool :=
  (List.range (s.length + 1)).any fun p =>
    alts.any fun alt =>
      boundaryAt s p && litPrefixCI ci alt (s.drop p) &&
        boundaryAt s (p + alt.length)

/-- Literals generated by `(1[3-9]|2[0-3])`: the hour tokens 13-23. -/
def hourTokenAlts : List (List Char) :=
  ["13", "14", "15", "16", "17", "18", "19", "20", "21", "22", "23"].map
    String.toList

/-- Literals of `(am|pm|a\.m\.|p\.m\.)`. -/
def ampmAlts : List (List Char) :=
  ["am", "pm", "a.m.", "p.m."].map String.toList

/-- Literals of `(morning|evening|night|afternoon)`. -/
def periodAlts : List (List Char) :=
  ["morning", "evening", "night", "afternoon"].map String.toList

/-- Source `is24HourQuote(quote)`: `some true` for strictly 24-hour
(`return true`), `some false` for strictly 12-hour (`return false`),
`none` for ambiguous (`return null`), testing the three regexes in
source order against `quote.quote_time_case`. -/
def is24HourQuote (q : QuoteRecord) : Option Bool :=
  let timeText := q.quote_time_case.toList
  if testRegexAlts false hourTokenAlts timeText then some true
  else if testRegexAlts true ampmAlts timeText then some false
  else if testRegexAlts true periodAlts timeText then some false
  else none

/-- The filter predicate inside `getQuoteForTime`: ambiguous quotes
(`null`) pass, otherwise the classification must equal `use24Hour`. -/
def quoteMatchesFormat (use24Hour : Bool) (q : QuoteRecord) : Bool :=
  match is24HourQuote q with
  | none => true
  | some b => b == use24Hour

/-- The `preferred` list of `getQuoteForTime`: candidates matching the
caller's format preference or classified ambiguous. -/
def preferredOf (use24Hour : Bool) (quotes : List QuoteRecord) : List QuoteRecord :=
  quotes.filter (quoteMatchesFormat use24Hour)

/-- Source `getQuoteForTime(hour, minute)`.  `rand` injects the
`Math.random()` draw: `Math.floor(Math.random() * pool.length)` is a
uniform index in `[0, pool.length)`, modelled as `rand % pool.length`.
Missing cache entry (`!hourData`), missing key or empty list
(`!quotes || quotes.length === 0`) give `none`. -/
def getQuoteForTime (cache : QuotesCache) (use24Hour : Bool)
    (hour minute rand : Nat) : Option QuoteRecord :=
  match cache.lookup (hourKey hour) with
  | none => none
  | some hourData =>
    match hourData.lookup (formatTimeKey hour minute) with
    | none => none
    | some quotes =>
      if quotes.length = 0 then none
      else
        let preferred := preferredOf use24Hour quotes
        let pool := if 0 < preferred.length then preferred else quotes
        pool.get? (rand % pool.length)

/-! ### Hourly data store

`loadHour` / `preloadAdjacentHours` over the `quotesCache` and
`loadingHours` objects.  Promises are given identities (naturals) so
that "returns the same pending promise" is expressible; the fetch
continuation (`then` / `catch`) is the separate transition
`completeLoad`, as the event loop runs it later. -/

/-- State of the store: resident partitions, in-flight loads (hour key
to promise id), and a fresh-promise counter. -/
structure StoreState where
  quotesCache : QuotesCache
  loadingHours : List (String × Nat)
  nextPromiseId : Nat
deriving DecidableEq

/-- What a `loadHour` call returned: `Promise.resolve()` (already
cached — note an empty cached object is truthy), the existing pending
promise, or a freshly started fetch. -/
inductive LoadResult where
  | resolvedImmediately : LoadResult
  | existingPromise : Nat → LoadResult
  | newFetch : Nat → LoadResult
deriving DecidableEq

/-- Source `loadHour(hour)` up to its suspension point: the cache
check, the in-flight check, and registration of a new fetch promise. -/
def loadHour (st : StoreState) (hour : Nat) : StoreState × LoadResult :=
  let key := hourKey hour
  match st.quotesCache.lookup key with
  | some _ => (st, LoadResult.resolvedImmediately)
  | none =>
    match st.loadingHours.lookup key with
    | some id => (st, LoadResult.existingPromise id)
    | none =>
      ({ quotesCache := st.quotesCache,
         loadingHours := (key, st.nextPromiseId) :: st.loadingHours,
         nextPromiseId := st.nextPromiseId + 1 },
       LoadResult.newFetch st.nextPromiseId)

/-- Outcome of the fetch a `loadHour` call started.  `failure` covers
every path into the `catch` handler: network error, non-ok HTTP
status, JSON parse error, and the invalid-data throw. -/
inductive FetchOutcome where
  | success : Partition → FetchOutcome
  | failure : FetchOutcome

/-- The fetch continuation of `loadHour`: on success store the parsed
partition; on any failure store an empty partition (`{}`) so the hour
is never retried; either way delete the in-flight entry. -/
def completeLoad (st : StoreState) (hour : Nat) (outcome : FetchOutcome) : StoreState :=
  let key := hourKey hour
  match outcome with
  | FetchOutcome.success data =>
    { quotesCache := (key, data) :: st.quotesCache,
      loadingHours := st.loadingHours.filter fun kv => !(kv.1 == key),
      nextPromiseId := st.nextPromiseId }
  | FetchOutcome.failure =>
    { quotesCache := (key, ([] : Partition)) :: st.quotesCache,
      loadingHours := st.loadingHours.filter fun kv => !(kv.1 == key),
      nextPromiseId := st.nextPromiseId }

/-- `n` back-to-back `loadHour` calls for the same hour, as issued by
concurrent requesters on the single-threaded event loop before the
fetch resolves; returns the final state and each call's result. -/
def loadHourIter : StoreState → Nat → Nat → StoreState × List LoadResult
  | st, _, 0 => (st, [])
  | st, hour, n + 1 =>
    let step := loadHour st hour
    let rest := loadHourIter step.1 hour n
    (rest.1, step.2 :: rest.2)

/-- Number of results that started an underlying fetch. -/
def countNewFetches (rs : List LoadResult) : Nat :=
  rs.countP fun r =>
    match r with
    | LoadResult.newFetch _ => true
    | _ => false

/-! ### Tick handler `updateClock` and the preference setters -/

/-- The mutable client state read and written by `updateClock`,
`setTimeFormat` and `setTimezone`.  `animationEnabled` reflects the
stored `quote-clock-animation` preference read by
`isAnimationEnabled()`. -/
structure AppState where
  quotesReady : Bool
  lastDisplayedMinute : Option Nat
  quotesCache : QuotesCache
  use24Hour : Bool
  animationEnabled : Bool
  currentTimezone : String
deriving DecidableEq

/-- Reified side effects of a tick. `startHourLoad` stands for the
loading branch (add the loading class and call
`loadHour(hour).then(...)`); `prefetch` stands for a
`preloadAdjacentHours` call; `playPageTurn` carries the quote rendered
while covered. -/
inductive Effect where
  | updateDigitalTime : Effect
  | renderQuote : Option QuoteRecord → Effect
  | playPageTurn : Option QuoteRecord → Effect
  | startHourLoad : String → Effect
  | prefetch : String → Effect
  | storageWrite : String → String → Effect
deriving DecidableEq

/-- Source `updateClock()`, with the clock read passed in as
`hour`/`minute` and the random draw as `rand`. -/
def updateClock (st : AppState) (hour minute rand : Nat) : AppState × List Effect :=
  if st.quotesReady = false then
    (st, [Effect.updateDigitalTime])
  else
    let currentMinute := hour * 60 + minute
    if st.lastDisplayedMinute = some currentMinute then
      (st, [Effect.updateDigitalTime])
    else
      let isFirstLoad := st.lastDisplayedMinute.isNone
      let st1 := { st with lastDisplayedMinute := some currentMinute }
      let hKey := hourKey hour
      match st.quotesCache.lookup hKey with
      | none => (st1, [Effect.startHourLoad hKey])
      | some _ =>
        let preloadEffs :=
          if 55 ≤ minute then [Effect.prefetch (hourKey ((hour + 1) % 24))]
          else []
        let quote := getQuoteForTime st.quotesCache st.use24Hour hour minute rand
        if isFirstLoad then
          (st1, preloadEffs ++ [Effect.renderQuote quote, Effect.updateDigitalTime])
        else if st.animationEnabled then
          (st1, preloadEffs ++ [Effect.playPageTurn quote])
        else
          (st1, preloadEffs ++ [Effect.renderQuote quote, Effect.updateDigitalTime])

/-- Content-mutation effects: a quote render or a page-turn cycle
(which renders while covered). -/
def isMutation (e : Effect) : Bool :=
  match e with
  | Effect.renderQuote _ => true
  | Effect.playPageTurn _ => true
  | _ => false

/-- Number of content mutations in an effect list. -/
def mutCount (effs : List Effect) : Nat := effs.countP isMutation

/-- `true`/`false` as persisted by `storageSet` for a boolean. -/
def boolStr (b : Bool) : String := if b then "true" else "false"

/-- Source `setTimeFormat(is24Hour)`: set the flag, persist it, null
out `lastDisplayedMinute` to force a quote refresh, call
`updateClock()`. -/
def setTimeFormat (st : AppState) (is24 : Bool) (hour minute rand : Nat) :
    AppState × List Effect :=
  let st1 := { st with use24Hour := is24, lastDisplayedMinute := none }
  let step := updateClock st1 hour minute rand
  (step.1, Effect.storageWrite "quote-clock-24hour" (boolStr is24) :: step.2)

/-- Source `setTimezone(tz)`: set the zone, persist it, null out
`lastDisplayedMinute` to force an update, call `updateClock()`. -/
def setTimezone (st : AppState) (tz : String) (hour minute rand : Nat) :
    AppState × List Effect :=
  let st1 := { st with currentTimezone := tz, lastDisplayedMinute := none }
  let step := updateClock st1 hour minute rand
  (step.1, Effect.storageWrite "quote-clock-timezone" tz :: step.2)

/-! ### Scheduler -/

/-- Timer bookkeeping of the scheduler: the alignment timeout id, the
minute interval id, and a fresh-id counter for new timers. -/
structure SchedState where
  alignmentTimeoutId : Option Nat
  minuteIntervalId : Option Nat
  nextTimerId : Nat
deriving DecidableEq

/-- Reified timer operations performed by the scheduler. -/
inductive TimerEffect where
  | clearTimeout : Nat → TimerEffect
  | clearInterval : Nat → TimerEffect
  | setTimeout : Nat → Nat → TimerEffect
  | setInterval : Nat → Nat → TimerEffect
  | tick : TimerEffect
deriving DecidableEq

/-- Source `scheduleNextUpdate()`: clear any existing alignment
timeout and minute interval, then schedule a one-shot timeout of
`(60 - now.getSeconds()) * 1000 - now.getMilliseconds()` ms.  The
clock read is passed in as `sec`/`ms`. -/
def scheduleNextUpdate (st : SchedState) (sec ms : Nat) : SchedState × List TimerEffect :=
  let cancelAlign : List TimerEffect :=
    match st.alignmentTimeoutId with
    | some i => [TimerEffect.clearTimeout i]
    | none => []
  let cancelRepeat : List TimerEffect :=
    match st.minuteIntervalId with
    | some i => [TimerEffect.clearInterval i]
    | none => []
  let msUntilNextMinute := (60 - sec) * 1000 - ms
  ({ alignmentTimeoutId := some st.nextTimerId,
     minuteIntervalId := none,
     nextTimerId := st.nextTimerId + 1 },
   cancelAlign ++ cancelRepeat ++
     [TimerEffect.setTimeout st.nextTimerId msUntilNextMinute])

/-- The alignment timeout's callback: null out its own id, run
`updateClock()` (the tick), then install the repeating 60,000 ms
interval. -/
def alignmentFire (st : SchedState) : SchedState × List TimerEffect :=
  ({ alignmentTimeoutId := none,
     minuteIntervalId := some st.nextTimerId,
     nextTimerId := st.nextTimerId + 1 },
   [TimerEffect.tick, TimerEffect.setInterval st.nextTimerId 60000])

/-! ### Page-turn transition player

`playPageTurn` is three nested timeouts; each invocation is reified as
a chain that advances cover → covered-pause → uncover.  The loader
state records the `loader--active` class and every chain whose next
timeout is still pending. -/

/-- Source `TILE_TRANSITION_MS`. -/
def TILE_TRANSITION_MS : Nat := 2200

/-- Source `COVERED_PAUSE_MS`. -/
def COVERED_PAUSE_MS : Nat := 300

/-- Which of the three nested timeouts of one `playPageTurn` call is
pending. -/
inductive PTPhase where
  | covering : PTPhase
  | coveredPause : PTPhase
  | uncovering : PTPhase
deriving DecidableEq

/-- One in-flight `playPageTurn` invocation: its pending phase and the
absolute time its timeout fires. -/
structure PTChain where
  phase : PTPhase
  due : Nat
deriving DecidableEq

/-- The loader element plus all in-flight transition chains. -/
structure LoaderState where
  loaderActive : Bool
  chains : List PTChain
deriving DecidableEq

/-- The controller is idle when no timeout chain is in flight. -/
def ptIdle (st : LoaderState) : Bool := st.chains.isEmpty

/-- Source `playPageTurn(onCovered, onComplete)` at time `now`: add
the `loader--active` class and schedule the cover timeout.  There is
no guard on the current state. -/
def playPageTurn (now : Nat) (st : LoaderState) : LoaderState :=
  { loaderActive := true,
    chains := st.chains ++ [{ phase := PTPhase.covering, due := now + TILE_TRANSITION_MS }] }

/-- Observable callbacks fired as a chain advances. -/
inductive PTEvent where
  | onCovered : PTEvent
  | loaderUncover : PTEvent
  | onComplete : PTEvent
deriving DecidableEq

/-- Fire a chain's pending timeout: the cover timeout runs
`onCovered` and schedules the covered pause; the pause removes
`loader--active` and schedules the uncover wait; the uncover timeout
runs `onComplete` and ends the chain. -/
def fireChain (c : PTChain) : Option PTChain × List PTEvent :=
  match c.phase with
  | PTPhase.covering =>
    (some { phase := PTPhase.coveredPause, due := c.due + COVERED_PAUSE_MS },
     [PTEvent.onCovered])
  | PTPhase.coveredPause =>
    (some { phase := PTPhase.uncovering, due := c.due + TILE_TRANSITION_MS },
     [PTEvent.loaderUncover])
  | PTPhase.uncovering => (none, [PTEvent.onComplete])

/-- Run one chain to completion (three timeouts suffice), collecting
its events. -/
def chainRun (fuel : Nat) (c : PTChain) : List PTEvent :=
  match fuel with
  | 0 => []
  | f + 1 =>
    match fireChain c with
    | (none, evs) => evs
    | (some c2, evs) => evs ++ chainRun f c2

/-! ### Preference storage -/

/-- A storage backend over backing state `σ` whose operations may
throw (`localStorage` in private browsing / full-quota contexts). -/
structure StorageBackend (σ : Type) where
  getItem : σ → String → Except Unit (Option String)
  setItem : σ → String → String → Except Unit σ

/-- Source `storageGet(key)`: `try { return localStorage.getItem(key) }
catch (e) { return null }`.  Total by construction: no exception
escapes. -/
def storageGet {σ : Type} (b : StorageBackend σ) (s : σ) (key : String) :
    Option String :=
  match b.getItem s key with
  | Except.ok v => v
  | Except.error _ => none

/-- Source `storageSet(key, value)`: `try { localStorage.setItem(key,
value) } catch (e) { /* silently ignore */ }`.  Total; a throwing
write leaves the backing state unchanged. -/
def storageSet {σ : Type} (b : StorageBackend σ) (s : σ) (key value : String) : σ :=
  match b.setItem s key value with
  | Except.ok s2 => s2
  | Except.error _ => s

/-- A backend whose reads and writes always throw, for exercising the
degradation paths. -/
def brokenStorage : StorageBackend Unit :=
  { getItem := fun _ _ => Except.error ()
    setItem := fun _ _ _ => Except.error () }

/-! ## Theorems -/

/-- Helper: a valid index into a list yields its element via `get?`. -/
theorem list_get?_of_lt {α : Type} (l : List α) (n : Nat) (h : n < l.length) :
    l.get? n = some (l.get ⟨n, h⟩) := by
  induction l generalizing n with
  | nil => exact absurd h (Nat.not_lt_zero n)
  | cons a as ih =>
    cases n with
    | zero => rfl
    | succ k => exact ih k (Nat.lt_of_succ_lt_succ h)

/-- C1: for every hour/minute whose resident partition maps the
zero-padded "HH:MM" key to a non-empty candidate list,
`getQuoteForTime` returns a record drawn from exactly that list (never
`none`), and when the sub-list of candidates matching `use24Hour` or
classified ambiguous is non-empty the result comes from that sub-list,
otherwise from the entire unfiltered list. -/
theorem getQuoteForTime_selects_from_candidates
    (cache : QuotesCache) (use24 : Bool) (hour minute rand : Nat)
    (part : Partition) (quotes : List QuoteRecord)
    (hpart : cache.lookup (hourKey hour) = some part)
    (hq : part.lookup (formatTimeKey hour minute) = some quotes)
    (hne : quotes ≠ []) :
    ∃ q, getQuoteForTime cache use24 hour minute rand = some q ∧
      q ∈ quotes ∧
      (preferredOf use24 quotes ≠ [] → q ∈ preferredOf use24 quotes) := by
  have hlen : quotes.length ≠ 0 := fun h0 => hne (List.length_eq_zero.mp h0)
  by_cases hpref : preferredOf use24 quotes = []
  · have hpos : 0 < quotes.length := Nat.pos_of_ne_zero hlen
    have hidx : rand % quotes.length < quotes.length := Nat.mod_lt _ hpos
    refine ⟨quotes.get ⟨rand % quotes.length, hidx⟩, ?_,
      List.get_mem _ _ _, fun hc => absurd hpref hc⟩
    simp only [getQuoteForTime, hpart, hq, hlen, if_false, hpref]
    simp [list_get?_of_lt quotes _ hidx]
  · have hppos : 0 < (preferredOf use24 quotes).length :=
      List.length_pos.mpr hpref
    have hidx : rand % (preferredOf use24 quotes).length <
        (preferredOf use24 quotes).length := Nat.mod_lt _ hppos
    refine ⟨(preferredOf use24 quotes).get ⟨_, hidx⟩, ?_, ?_, fun _ => List.get_mem _ _ _⟩
    · simp only [getQuoteForTime, hpart, hq, hlen, if_false]
      simp [hppos, list_get?_of_lt _ _ hidx]
    · exact List.mem_of_mem_filter (List.get_mem _ _ _)

/-- Witness for C1: a one-candidate partition at "00:00" (the
ambiguous record of spec scenario 9). -/
theorem getQuoteForTime_selects_witness :
    ∃ q, getQuoteForTime
        [("00", [("00:00",
          [{ quote_first := "It was ", quote_time_case := "midnight",
             quote_last := " when she arrived.", author := "A", title := "T" }])])]
        true 0 0 0 = some q ∧
      q ∈ [{ quote_first := "It was ", quote_time_case := "midnight",
             quote_last := " when she arrived.", author := "A", title := "T" }] ∧
      (preferredOf true
          [{ quote_first := "It was ", quote_time_case := "midnight",
             quote_last := " when she arrived.", author := "A", title := "T" }] ≠ [] →
        q ∈ preferredOf true
          [{ quote_first := "It was ", quote_time_case := "midnight",
             quote_last := " when she arrived.", author := "A", title := "T" }]) :=
  getQuoteForTime_selects_from_candidates
    [("00", [("00:00",
      [{ quote_first := "It was ", quote_time_case := "midnight",
         quote_last := " when she arrived.", author := "A", title := "T" }])])]
    true 0 0 0
    [("00:00",
      [{ quote_first := "It was ", quote_time_case := "midnight",
         quote_last := " when she arrived.", author := "A", title := "T" }])]
    [{ quote_first := "It was ", quote_time_case := "midnight",
       quote_last := " when she arrived.", author := "A", title := "T" }]
    (by decide) (by decide) (by decide)

/-- C2: the code misses the dotted AM/PM markers.  The regex
`\b(am|pm|a\.m\.|p\.m\.)\b` cannot match "a.m." or "p.m." when the
final period is followed by a non-word character (the trailing `\b`
fails there), so a time text such as "5 a.m." is classified ambiguous
(`none`) instead of strictly 12-hour, contradicting the claim and the
source's own comment; the undotted marker in "5 am" is classified
strictly 12-hour as documented. -/
theorem is24HourQuote_dotted_marker_missed :
    is24HourQuote { quote_first := "It struck ", quote_time_case := "5 a.m.",
                    quote_last := " just then.", author := "A", title := "T" } = none ∧
    is24HourQuote { quote_first := "It struck ", quote_time_case := "5 am",
                    quote_last := " just then.", author := "A", title := "T" } = some false := by
  decide

/-- C3: after a failed fetch for an hour, the store holds an empty
partition under that hour's key (loaded-but-empty, not absent), a
subsequent `loadHour` resolves immediately with no new fetch and no
state change, and quote resolution for that hour yields `none`. -/
theorem loadHour_failure_caches_empty (st : StoreState) (hour minute rand : Nat)
    (use24 : Bool) :
    (completeLoad st hour FetchOutcome.failure).quotesCache.lookup (hourKey hour) =
      some ([] : Partition) ∧
    loadHour (completeLoad st hour FetchOutcome.failure) hour =
      (completeLoad st hour FetchOutcome.failure, LoadResult.resolvedImmediately) ∧
    getQuoteForTime (completeLoad st hour FetchOutcome.failure).quotesCache
      use24 hour minute rand = none := by
  have hcache : (completeLoad st hour FetchOutcome.failure).quotesCache.lookup
      (hourKey hour) = some ([] : Partition) := by
    simp [completeLoad, List.lookup]
  refine ⟨hcache, ?_, ?_⟩
  · simp [loadHour, hcache]
  · simp [getQuoteForTime, hcache, List.lookup]

/-- Helper: a `loadHour` call made while the key is pending returns
the same pending promise and leaves the state unchanged. -/
theorem loadHour_pending (st : StoreState) (hour : Nat) (id : Nat)
    (hc : st.quotesCache.lookup (hourKey hour) = none)
    (hl : st.loadingHours.lookup (hourKey hour) = some id) :
    loadHour st hour = (st, LoadResult.existingPromise id) := by
  simp [loadHour, hc, hl]

/-- Helper: iterating `loadHour` from a pending state only returns the
existing promise, never a new fetch. -/
theorem loadHourIter_pending (hour : Nat) (id : Nat) (n : Nat) :
    ∀ st : StoreState,
      st.quotesCache.lookup (hourKey hour) = none →
      st.loadingHours.lookup (hourKey hour) = some id →
      loadHourIter st hour n = (st, List.replicate n (LoadResult.existingPromise id)) := by
  induction n with
  | zero => intro st _ _; rfl
  | succ k ih =>
    intro st hc hl
    simp only [loadHourIter, loadHour_pending st hour id hc hl, ih st hc hl,
      List.replicate_succ]

/-- Helper: results that are all `existingPromise` contain no fetch. -/
theorem countNewFetches_replicate (n : Nat) (id : Nat) :
    countNewFetches (List.replicate n (LoadResult.existingPromise id)) = 0 := by
  induction n with
  | zero => rfl
  | succ k ih => simp [countNewFetches, List.replicate_succ, List.countP_cons] at ih ⊢

/-- C4: single-flight.  Starting from an hour key that is neither
resident nor loading, `n` back-to-back `loadHour` calls issue exactly
one underlying fetch: the first call returns a new fetch promise and
every later call returns that same pending promise. -/
theorem loadHour_single_flight (st : StoreState) (hour n : Nat)
    (hc : st.quotesCache.lookup (hourKey hour) = none)
    (hl : st.loadingHours.lookup (hourKey hour) = none)
    (hn : 1 ≤ n) :
    (loadHourIter st hour n).2 =
      LoadResult.newFetch st.nextPromiseId ::
        List.replicate (n - 1) (LoadResult.existingPromise st.nextPromiseId) ∧
    countNewFetches (loadHourIter st hour n).2 = 1 := by
  obtain ⟨k, rfl⟩ : ∃ k, n = k + 1 := ⟨n - 1, (Nat.succ_pred_eq_of_pos hn).symm⟩
  have hfirst : loadHour st hour =
      ({ quotesCache := st.quotesCache,
         loadingHours := (hourKey hour, st.nextPromiseId) :: st.loadingHours,
         nextPromiseId := st.nextPromiseId + 1 },
       LoadResult.newFetch st.nextPromiseId) := by
    simp [loadHour, hc, hl]
  have hrest := loadHourIter_pending hour st.nextPromiseId k
    { quotesCache := st.quotesCache,
      loadingHours := (hourKey hour, st.nextPromiseId) :: st.loadingHours,
      nextPromiseId := st.nextPromiseId + 1 }
    hc (by simp [List.lookup])
  constructor
  · simp [loadHourIter, hfirst, hrest]
  · simp [loadHourIter, hfirst, hrest, countNewFetches, List.countP_cons,
      countNewFetches_replicate k st.nextPromiseId]

/-- Witness for C4: three concurrent loads of hour 7 from a fresh
store yield one fetch (promise 0) and two shared pending results. -/
theorem loadHour_single_flight_witness :
    (loadHourIter { quotesCache := [], loadingHours := [], nextPromiseId := 0 } 7 3).2 =
      LoadResult.newFetch 0 :: List.replicate 2 (LoadResult.existingPromise 0) ∧
    countNewFetches
      (loadHourIter { quotesCache := [], loadingHours := [], nextPromiseId := 0 } 7 3).2 = 1 :=
  loadHour_single_flight _ 7 3 rfl rfl (by decide)

/-- Helper: a tick that fires for the minute already displayed only
refreshes the digital time and changes nothing. -/
theorem updateClock_dedupes (st : AppState) (hour minute rand : Nat)
    (hready : st.quotesReady = true)
    (hlast : st.lastDisplayedMinute = some (hour * 60 + minute)) :
    updateClock st hour minute rand = (st, [Effect.updateDigitalTime]) := by
  simp [updateClock, hready, hlast]

/-- Helper: any tick from a ready state leaves the state ready, leaves
`lastDisplayedMinute` at the current minute index, and performs at
most one content mutation. -/
theorem updateClock_post (st : AppState) (hour minute rand : Nat)
    (hready : st.quotesReady = true) :
    (updateClock st hour minute rand).1.quotesReady = true ∧
    (updateClock st hour minute rand).1.lastDisplayedMinute =
      some (hour * 60 + minute) ∧
    mutCount (updateClock st hour minute rand).2 ≤ 1 := by
  simp only [updateClock, hready]
  split
  · simp_all
  next hdedupe =>
    split
    · simp_all [mutCount, List.countP, List.countP.go, isMutation]
    · split
      · simp [mutCount, List.countP, List.countP.go, isMutation]
      · split
        · split <;>
            simp [mutCount, List.countP, List.countP.go, isMutation]
        · split
          · split <;>
              simp [mutCount, List.countP, List.countP.go, isMutation]
          · split <;>
              simp [mutCount, List.countP, List.countP.go, isMutation]

/-- C5: when the tick fires for the minute already displayed
(`hour*60+minute = lastDisplayedMinute`), `updateClock` only refreshes
the digital time — no quote selection effect, no render, no
transition, state (including `lastDisplayedMinute`) unchanged — and
two ticks within the same minute perform at most one content
mutation between them. -/
theorem updateClock_minute_dedupe (st : AppState) (hour minute rand rand2 : Nat)
    (hready : st.quotesReady = true) :
    (st.lastDisplayedMinute = some (hour * 60 + minute) →
      updateClock st hour minute rand = (st, [Effect.updateDigitalTime])) ∧
    mutCount (updateClock st hour minute rand).2 +
      mutCount (updateClock (updateClock st hour minute rand).1 hour minute rand2).2 ≤ 1 := by
  refine ⟨updateClock_dedupes st hour minute rand hready, ?_⟩
  obtain ⟨h1, h2, h3⟩ := updateClock_post st hour minute rand hready
  rw [updateClock_dedupes _ hour minute rand2 h1 h2]
  simpa [mutCount, List.countP, List.countP.go, isMutation] using h3

/-- Witness for C5: a ready state already showing minute index
10*60+30; the tick is a digital-time-only no-op and two ticks mutate
at most once. -/
theorem updateClock_minute_dedupe_witness :
    updateClock
      { quotesReady := true, lastDisplayedMinute := some 630, quotesCache := [],
        use24Hour := true, animationEnabled := true, currentTimezone := "UTC" }
      10 30 0 =
      ({ quotesReady := true, lastDisplayedMinute := some 630, quotesCache := [],
         use24Hour := true, animationEnabled := true, currentTimezone := "UTC" },
       [Effect.updateDigitalTime]) ∧
    mutCount (updateClock
      { quotesReady := true, lastDisplayedMinute := some 630, quotesCache := [],
        use24Hour := true, animationEnabled := true, currentTimezone := "UTC" }
      10 30 0).2 +
      mutCount (updateClock (updateClock
        { quotesReady := true, lastDisplayedMinute := some 630, quotesCache := [],
          use24Hour := true, animationEnabled := true, currentTimezone := "UTC" }
        10 30 0).1 10 30 1).2 ≤ 1 :=
  ⟨(updateClock_minute_dedupe _ 10 30 0 1 rfl).1 rfl,
   (updateClock_minute_dedupe _ 10 30 0 1 rfl).2⟩

/-- C6: `scheduleNextUpdate` schedules a fresh one-shot alignment
timeout of `(60 - sec) * 1000 - ms` milliseconds (the time to the next
minute boundary: delay + elapsed = 60,000 ms), cancelling any existing
alignment timeout and minute interval first, so the post state has
exactly the new alignment timer active and no interval; the alignment
callback runs the tick and then installs the repeating 60,000 ms
interval, itself leaving exactly one active timer. -/
theorem scheduleNextUpdate_alignment (st : SchedState) (sec ms : Nat)
    (hsec : sec < 60) (hms : ms < 1000) :
    TimerEffect.setTimeout st.nextTimerId ((60 - sec) * 1000 - ms) ∈
      (scheduleNextUpdate st sec ms).2 ∧
    ((60 - sec) * 1000 - ms) + (sec * 1000 + ms) = 60000 ∧
    (scheduleNextUpdate st sec ms).1.alignmentTimeoutId = some st.nextTimerId ∧
    (scheduleNextUpdate st sec ms).1.minuteIntervalId = none ∧
    (∀ a, st.alignmentTimeoutId = some a →
      TimerEffect.clearTimeout a ∈ (scheduleNextUpdate st sec ms).2) ∧
    (∀ b, st.minuteIntervalId = some b →
      TimerEffect.clearInterval b ∈ (scheduleNextUpdate st sec ms).2) ∧
    (∀ st2 : SchedState, alignmentFire st2 =
      ({ alignmentTimeoutId := none, minuteIntervalId := some st2.nextTimerId,
         nextTimerId := st2.nextTimerId + 1 },
       [TimerEffect.tick, TimerEffect.setInterval st2.nextTimerId 60000])) := by
  have hsub : 1000 * (60 - sec) = 60000 - 1000 * sec := by
    rw [Nat.mul_sub]
  refine ⟨?_, ?_, rfl, rfl, ?_, ?_, fun st2 => rfl⟩
  · simp [scheduleNextUpdate]
  · have h1 : ms ≤ (60 - sec) * 1000 := by
      have : 1 ≤ 60 - sec := by omega
      calc ms ≤ 1000 := Nat.le_of_lt hms
        _ = 1 * 1000 := (Nat.one_mul 1000).symm
        _ ≤ (60 - sec) * 1000 := Nat.mul_le_mul_right 1000 this
    omega
  · intro a ha; simp [scheduleNextUpdate, ha]
  · intro b hb; simp [scheduleNextUpdate, hb]

/-- Witness for C6: restarting at second 59.500 while timers 5 and 6
are active cancels both and schedules a 500 ms alignment timeout. -/
theorem scheduleNextUpdate_alignment_witness :
    TimerEffect.setTimeout 7 ((60 - 59) * 1000 - 500) ∈
      (scheduleNextUpdate
        { alignmentTimeoutId := some 5, minuteIntervalId := some 6, nextTimerId := 7 }
        59 500).2 ∧
    TimerEffect.clearTimeout 5 ∈
      (scheduleNextUpdate
        { alignmentTimeoutId := some 5, minuteIntervalId := some 6, nextTimerId := 7 }
        59 500).2 ∧
    TimerEffect.clearInterval 6 ∈
      (scheduleNextUpdate
        { alignmentTimeoutId := some 5, minuteIntervalId := some 6, nextTimerId := 7 }
        59 500).2 ∧
    (scheduleNextUpdate
      { alignmentTimeoutId := some 5, minuteIntervalId := some 6, nextTimerId := 7 }
      59 500).1.minuteIntervalId = none :=
  ⟨(scheduleNextUpdate_alignment _ 59 500 (by decide) (by decide)).1,
   (scheduleNextUpdate_alignment _ 59 500 (by decide) (by decide)).2.2.2.2.1 5 rfl,
   (scheduleNextUpdate_alignment _ 59 500 (by decide) (by decide)).2.2.2.2.2.1 6 rfl,
   (scheduleNextUpdate_alignment _ 59 500 (by decide) (by decide)).2.2.2.1⟩

/-- C7 counterexample: `playPageTurn` has no reentrancy guard.
Invoked at time 0 from the idle state it leaves the controller
non-idle; invoked again at time 1000 — while the first cycle is still
covering — it starts a second overlapping transition chain (a second
cover timeout due at 3200, alongside the first chain), rather than
queueing or ignoring the call. -/
theorem playPageTurn_overlap_counterexample :
    ptIdle (playPageTurn 0 { loaderActive := false, chains := [] }) = false ∧
    (playPageTurn 1000 (playPageTurn 0 { loaderActive := false, chains := [] })).chains =
      [{ phase := PTPhase.covering, due := 0 + TILE_TRANSITION_MS },
       { phase := PTPhase.covering, due := 1000 + TILE_TRANSITION_MS }] := by
  decide

/-- C7 amended: `playPageTurn` is unguarded — invoked in any state,
idle or mid-transition, it re-adds the loader class and
unconditionally appends one new cover/pause/uncover timeout chain,
preserving the chains already in flight (so a call during a cycle
starts a second overlapping transition instead of being queued or
ignored); each individual chain still covers, uncovers and completes
exactly once. -/
theorem playPageTurn_unguarded (now : Nat) (st : LoaderState) :
    (playPageTurn now st).chains =
      st.chains ++ [{ phase := PTPhase.covering, due := now + TILE_TRANSITION_MS }] ∧
    (playPageTurn now st).loaderActive = true ∧
    (playPageTurn now st).chains.length = st.chains.length + 1 ∧
    chainRun 3 { phase := PTPhase.covering, due := now + TILE_TRANSITION_MS } =
      [PTEvent.onCovered, PTEvent.loaderUncover, PTEvent.onComplete] :=
  ⟨rfl, rfl, by simp [playPageTurn], rfl⟩

/-- C8: the preference-storage wrappers never propagate a backend
exception — they are total functions of the backend outcome — and on
a throwing backend a read returns `null` (so the caller falls back to
the default) while a write is a silent no-op leaving the backing
state unchanged. -/
theorem storage_degrades {σ : Type} (b : StorageBackend σ) (s : σ)
    (key value : String)
    (hget : b.getItem s key = Except.error ())
    (hset : b.setItem s key value = Except.error ()) :
    storageGet b s key = none ∧ storageSet b s key value = s := by
  constructor
  · simp [storageGet, hget]
  · simp [storageSet, hset]

/-- Witness for C8: the always-throwing backend degrades to a `null`
read and a no-op write. -/
theorem storage_degrades_witness :
    storageGet brokenStorage () "quote-clock-theme" = none ∧
    storageSet brokenStorage () "quote-clock-theme" "dark" = () :=
  storage_degrades brokenStorage () "quote-clock-theme" "dark" rfl rfl

/-- C9: whenever `updateClock` renders (quotes ready, current hour
resident, minute not yet displayed) with minute ≥ 55, its effects
include a fire-and-forget prefetch of the next hour's partition, keyed
`hourKey ((hour + 1) % 24)`, and still perform exactly one content
mutation in the same tick (the render is not blocked on the
prefetch). -/
theorem updateClock_prefetches_next_hour (st : AppState)
    (hour minute rand : Nat) (part : Partition)
    (hready : st.quotesReady = true)
    (hnew : st.lastDisplayedMinute ≠ some (hour * 60 + minute))
    (hres : st.quotesCache.lookup (hourKey hour) = some part)
    (hmin : 55 ≤ minute) :
    Effect.prefetch (hourKey ((hour + 1) % 24)) ∈ (updateClock st hour minute rand).2 ∧
    mutCount (updateClock st hour minute rand).2 = 1 := by
  by_cases hfl : st.lastDisplayedMinute = none <;>
    by_cases han : st.animationEnabled = true <;>
    constructor <;>
    simp [updateClock, hready, hnew, hres, hmin, hfl, han, mutCount,
      List.countP_cons, List.countP_nil, isMutation, Option.isNone_iff_eq_none]

/-- Witness for C9: at 23:55 the prefetched key is "00" (wrap-around
at the end of the day), alongside one content mutation. -/
theorem updateClock_prefetches_next_hour_witness :
    Effect.prefetch "00" ∈ (updateClock
      { quotesReady := true, lastDisplayedMinute := none,
        quotesCache := [("23", [])], use24Hour := true,
        animationEnabled := true, currentTimezone := "UTC" }
      23 55 0).2 ∧
    mutCount (updateClock
      { quotesReady := true, lastDisplayedMinute := none,
        quotesCache := [("23", [])], use24Hour := true,
        animationEnabled := true, currentTimezone := "UTC" }
      23 55 0).2 = 1 :=
  updateClock_prefetches_next_hour _ 23 55 0 [] rfl (by decide) (by decide)
    (by decide)

/-- Helper: a tick from a ready state with `lastDisplayedMinute`
nulled out and the current hour resident takes the first-load path: it
renders synchronously (a render effect is present, no page-turn effect
regardless of the animation preference) and re-arms the dedupe key. -/
theorem updateClock_firstLoad_effects (st : AppState) (hour minute rand : Nat)
    (part : Partition)
    (hready : st.quotesReady = true)
    (hnone : st.lastDisplayedMinute = none)
    (hres : st.quotesCache.lookup (hourKey hour) = some part) :
    (∃ q, Effect.renderQuote q ∈ (updateClock st hour minute rand).2) ∧
    (∀ q, Effect.playPageTurn q ∉ (updateClock st hour minute rand).2) ∧
    (updateClock st hour minute rand).1.lastDisplayedMinute =
      some (hour * 60 + minute) ∧
    (updateClock st hour minute rand).1.quotesReady = true := by
  refine ⟨⟨getQuoteForTime st.quotesCache st.use24Hour hour minute rand, ?_⟩,
    fun q => ?_, ?_, ?_⟩ <;>
  · by_cases hmin : 55 ≤ minute <;>
      simp [updateClock, hready, hnone, hres, hmin]

/-- C10: `setTimeFormat` and `setTimezone` both reset
`lastDisplayedMinute` to null before calling `updateClock`, so the
preference change forces a fresh quote render even when the minute
index is unchanged, and that forced render takes the first-load path:
a synchronous render with no page-turn transition even when animation
is enabled; the dedupe guard is re-armed immediately, so the very next
tick for the same minute is a digital-only no-op. -/
theorem preference_change_forces_fresh_render (st : AppState) (is24 : Bool)
    (tz : String) (hour minute rand rand2 : Nat) (part : Partition)
    (hready : st.quotesReady = true)
    (hres : st.quotesCache.lookup (hourKey hour) = some part) :
    ((∃ q, Effect.renderQuote q ∈ (setTimeFormat st is24 hour minute rand).2) ∧
     (∀ q, Effect.playPageTurn q ∉ (setTimeFormat st is24 hour minute rand).2) ∧
     (setTimeFormat st is24 hour minute rand).1.lastDisplayedMinute =
       some (hour * 60 + minute) ∧
     updateClock (setTimeFormat st is24 hour minute rand).1 hour minute rand2 =
       ((setTimeFormat st is24 hour minute rand).1, [Effect.updateDigitalTime])) ∧
    ((∃ q, Effect.renderQuote q ∈ (setTimezone st tz hour minute rand).2) ∧
     (∀ q, Effect.playPageTurn q ∉ (setTimezone st tz hour minute rand).2) ∧
     (setTimezone st tz hour minute rand).1.lastDisplayedMinute =
       some (hour * 60 + minute) ∧
     updateClock (setTimezone st tz hour minute rand).1 hour minute rand2 =
       ((setTimezone st tz hour minute rand).1, [Effect.updateDigitalTime])) := by
  have hA := updateClock_firstLoad_effects
    { st with use24Hour := is24, lastDisplayedMinute := none }
    hour minute rand part hready rfl hres
  have hB := updateClock_firstLoad_effects
    { st with currentTimezone := tz, lastDisplayedMinute := none }
    hour minute rand part hready rfl hres
  constructor
  · simp only [setTimeFormat]
    obtain ⟨⟨q, hq⟩, hnp, hlast, hrdy⟩ := hA
    refine ⟨⟨q, List.mem_cons_of_mem _ hq⟩, fun q2 hq2 => ?_, hlast, ?_⟩
    · rcases List.mem_cons.mp hq2 with h | h
      · exact Effect.noConfusion h
      · exact hnp q2 h
    · exact updateClock_dedupes _ hour minute rand2 hrdy hlast
  · simp only [setTimezone]
    obtain ⟨⟨q, hq⟩, hnp, hlast, hrdy⟩ := hB
    refine ⟨⟨q, List.mem_cons_of_mem _ hq⟩, fun q2 hq2 => ?_, hlast, ?_⟩
    · rcases List.mem_cons.mp hq2 with h | h
      · exact Effect.noConfusion h
      · exact hnp q2 h
    · exact updateClock_dedupes _ hour minute rand2 hrdy hlast

/-- Witness for C10: changing the format (and the timezone) at 10:30
with animation enabled renders synchronously and plays no
transition. -/
theorem preference_change_forces_fresh_render_witness :
    (∃ q, Effect.renderQuote q ∈ (setTimeFormat
      { quotesReady := true, lastDisplayedMinute := some 630,
        quotesCache := [("10", [])], use24Hour := true,
        animationEnabled := true, currentTimezone := "UTC" }
      false 10 30 0).2) ∧
    (∀ q, Effect.playPageTurn q ∉ (setTimeFormat
      { quotesReady := true, lastDisplayedMinute := some 630,
        quotesCache := [("10", [])], use24Hour := true,
        animationEnabled := true, currentTimezone := "UTC" }
      false 10 30 0).2) ∧
    (∃ q, Effect.renderQuote q ∈ (setTimezone
      { quotesReady := true, lastDisplayedMinute := some 630,
        quotesCache := [("10", [])], use24Hour := true,
        animationEnabled := true, currentTimezone := "UTC" }
      "Europe/London" 10 30 0).2) :=
  ⟨(preference_change_forces_fresh_render _ false "Europe/London" 10 30 0 1 []
      rfl (by decide)).1.1,
   (preference_change_forces_fresh_render _ false "Europe/London" 10 30 0 1 []
      rfl (by decide)).1.2.1,
   (preference_change_forces_fresh_render _ false "Europe/London" 10 30 0 1 []
      rfl (by decide)).2.1⟩
